import Mathlib

/-!
Shallow embedding of `sys/hardenedbsd/hbsd_pax_common.c` (HardenedBSD PaX
flag control plane) and proofs of the specification claims about it.

PaX flag masks (`pax_flag_t`, a `uint32_t`) are modelled as `Nat`, with the
32-bit complement written out explicitly where the C source uses `~`.
-/

/-- `UINT32_MAX`: every bit of a 32-bit `pax_flag_t` set. -/
def UINT32_MAX : Nat := 0xFFFFFFFF

/-- 32-bit bitwise complement, as computed by C `~` on a `uint32_t` operand. -/
def not32 (x : Nat) : Nat := UINT32_MAX ^^^ x

/-- Modelled from the spec: the PaX note bit layout lives in `sys/sys/pax.h`,
which is not among the sources; the spec fixes only its shape: toggleable
mitigations occupy paired bits with the disable bit one position above its
paired enable bit, plus a separate prefer-ACL marker bit, all gathered in an
all-known-bits mask.  We use a synthetic layout with six enable/disable pairs
at bits 0..11 and the marker at bit 12.  `PAX_NOTE_ALL_ENABLED` is the OR of
the enable bits (even positions 0,2,4,6,8,10). -/
def PAX_NOTE_ALL_ENABLED : Nat := 0x555

/-- Modelled from the spec: OR of the disable bits, each one position above
its paired enable bit (odd positions 1,3,5,7,9,11). -/
def PAX_NOTE_ALL_DISABLED : Nat := 0xAAA

/-- Modelled from the spec: the prefer-ACL marker bit (bit 12). -/
def PAX_NOTE_PREFER_ACL : Nat := 0x1000

/-- Modelled from the spec: the all-known-bits mask, covering every paired
enable/disable bit and the prefer-ACL marker. -/
def PAX_NOTE_ALL : Nat :=
  PAX_NOTE_ALL_ENABLED ||| PAX_NOTE_ALL_DISABLED ||| PAX_NOTE_PREFER_ACL

/-- Modelled from the spec: the uniform exec-format error code `ENOEXEC`
(value from `errno`, not among the sources). -/
def ENOEXEC : Nat := 8

/-- Modelled from the spec: `ENOENT`, the `vfs_copyopt` "parameter absent"
error (value from `errno`, not among the sources). -/
def ENOENT : Nat := 2

/-- `pax_validate_flags` from `hbsd_pax_common.c`: returns 1 when `flags`
has a bit outside `PAX_NOTE_ALL`, else 0. -/
def pax_validate_flags (flags : Nat) : Nat :=
  if flags &&& not32 PAX_NOTE_ALL ≠ 0 then 1 else 0

/-- `pax_check_conflicting_modes` from `hbsd_pax_common.c`: returns 1 when
some enable bit and its paired disable bit (one position above) are both
set, else 0. -/
def pax_check_conflicting_modes (mode : Nat) : Nat :=
  if (mode &&& PAX_NOTE_ALL_ENABLED) &&& ((mode &&& PAX_NOTE_ALL_DISABLED) >>> 1) ≠ 0 then 1
  else 0

/-- A bitwise AND is nonzero exactly when the operands share a set bit. -/
theorem and_ne_zero_iff_shared_bit (m k : Nat) :
    m &&& k ≠ 0 ↔ ∃ i, m.testBit i = true ∧ k.testBit i = true := by
  constructor
  · intro h
    obtain ⟨i, hi⟩ := Nat.ne_zero_implies_bit_true h
    rw [Nat.testBit_and] at hi
    exact ⟨i, Bool.and_eq_true_iff.mp hi⟩
  · rintro ⟨i, h1, h2⟩ h0
    have hbit : (m &&& k).testBit i = false := by
      rw [h0]; exact Nat.zero_testBit i
    rw [Nat.testBit_and, h1, h2] at hbit
    exact Bool.false_ne_true hbit.symm

/-- The 32-bit complement of `PAX_NOTE_ALL` has bit `i` set exactly when
`i < 32` and `PAX_NOTE_ALL` does not have bit `i` set. -/
theorem testBit_not32_all (i : Nat) :
    (not32 PAX_NOTE_ALL).testBit i =
      (decide (i < 32) && !(PAX_NOTE_ALL.testBit i)) := by
  have hmax : UINT32_MAX = 2 ^ 32 - 1 := by decide
  rw [not32, hmax, Nat.testBit_xor, Nat.testBit_two_pow_sub_one]
  by_cases h : i < 32
  · simp [h]
  · have h32 : 32 ≤ i := Nat.le_of_not_lt h
    have hsmall : PAX_NOTE_ALL < 2 ^ 32 := by decide
    have hall : PAX_NOTE_ALL.testBit i = false :=
      Nat.testBit_lt_two_pow
        (Nat.lt_of_lt_of_le hsmall (Nat.pow_le_pow_right (by decide) h32))
    simp [h, hall]

/-- Claim C3.  For every 32-bit mask `m`, `pax_validate_flags` reports a
failure (result 1) exactly when `m` has a set bit outside `PAX_NOTE_ALL`,
and reports success (result 0) exactly when every set bit of `m` lies inside
`PAX_NOTE_ALL`. -/
theorem pax_validate_flags_spec (m : Nat) (hm : m < 2 ^ 32) :
    (pax_validate_flags m = 1 ↔
      ∃ i, m.testBit i = true ∧ PAX_NOTE_ALL.testBit i = false) ∧
    (pax_validate_flags m = 0 ↔
      ∀ i, m.testBit i = true → PAX_NOTE_ALL.testBit i = true) := by
  have key : m &&& not32 PAX_NOTE_ALL ≠ 0 ↔
      ∃ i, m.testBit i = true ∧ PAX_NOTE_ALL.testBit i = false := by
    rw [and_ne_zero_iff_shared_bit]
    constructor
    · rintro ⟨i, h1, h2⟩
      rw [testBit_not32_all] at h2
      exact ⟨i, h1, by simpa using (Bool.and_eq_true_iff.mp h2).2⟩
    · rintro ⟨i, h1, h2⟩
      have hi32 : i < 32 := by
        by_contra hge
        have : m.testBit i = false := by
          refine Nat.testBit_lt_two_pow (Nat.lt_of_lt_of_le hm ?bnd)
          exact Nat.pow_le_pow_right (by decide) (Nat.le_of_not_lt hge)
        rw [this] at h1
        exact Bool.false_ne_true h1
      refine ⟨i, h1, ?bit⟩
      rw [testBit_not32_all, h2]
      simp [hi32]
  have hone : pax_validate_flags m = 1 ↔ m &&& not32 PAX_NOTE_ALL ≠ 0 := by
    unfold pax_validate_flags
    split_ifs with h <;> simp [h]
  have hzero : pax_validate_flags m = 0 ↔ ¬ m &&& not32 PAX_NOTE_ALL ≠ 0 := by
    unfold pax_validate_flags
    split_ifs with h <;> simp [h]
  constructor
  · rw [hone, key]
  · rw [hzero, key]
    constructor
    · intro hno i hbit
      by_contra hout
      exact hno ⟨i, hbit, Bool.eq_false_iff.mpr hout⟩
    · rintro hall ⟨i, h1, h2⟩
      rw [hall i h1] at h2
      simp at h2

/-- Closed witness for `pax_validate_flags_spec` at the concrete mask
`0x2000` (a bit outside `PAX_NOTE_ALL`). -/
theorem pax_validate_flags_spec_witness :
    pax_validate_flags 0x2000 = 1 := by
  have h := pax_validate_flags_spec 0x2000 (by decide)
  exact h.1.mpr ⟨13, by decide, by decide⟩

/-- Each disable bit of the modelled layout sits one position above its
paired enable bit: `PAX_NOTE_ALL_DISABLED` at `i+1` is `PAX_NOTE_ALL_ENABLED`
at `i`. -/
theorem disabled_testBit_succ (i : Nat) :
    PAX_NOTE_ALL_DISABLED.testBit (i + 1) = PAX_NOTE_ALL_ENABLED.testBit i := by
  have hdiv : PAX_NOTE_ALL_DISABLED / 2 = PAX_NOTE_ALL_ENABLED := by decide
  rw [Nat.testBit_succ, hdiv]

/-- Claim C4.  For every mask `m`, `pax_check_conflicting_modes` reports a
conflict (result 1) exactly when some enable bit `e` and its paired disable
bit `e+1` are both set in `m`; otherwise it reports no conflict (result 0).
The modelled disable mask is literally the enable mask shifted up by one. -/
theorem pax_check_conflicting_modes_spec (m : Nat) :
    PAX_NOTE_ALL_DISABLED = PAX_NOTE_ALL_ENABLED <<< 1 ∧
    (pax_check_conflicting_modes m = 1 ↔
      ∃ e, PAX_NOTE_ALL_ENABLED.testBit e = true ∧
        m.testBit e = true ∧ m.testBit (e + 1) = true) ∧
    (pax_check_conflicting_modes m = 0 ↔
      ¬ ∃ e, PAX_NOTE_ALL_ENABLED.testBit e = true ∧
        m.testBit e = true ∧ m.testBit (e + 1) = true) := by
  have key : (m &&& PAX_NOTE_ALL_ENABLED) &&&
      ((m &&& PAX_NOTE_ALL_DISABLED) >>> 1) ≠ 0 ↔
      ∃ e, PAX_NOTE_ALL_ENABLED.testBit e = true ∧
        m.testBit e = true ∧ m.testBit (e + 1) = true := by
    rw [and_ne_zero_iff_shared_bit]
    constructor
    · rintro ⟨i, h1, h2⟩
      rw [Nat.testBit_and] at h1
      rw [Nat.testBit_shiftRight, Nat.testBit_and] at h2
      obtain ⟨hm1, hen⟩ := Bool.and_eq_true_iff.mp h1
      obtain ⟨hm2, _⟩ := Bool.and_eq_true_iff.mp h2
      refine ⟨i, hen, hm1, ?msucc⟩
      rw [Nat.add_comm 1 i] at hm2
      exact hm2
    · rintro ⟨e, hen, hm1, hm2⟩
      refine ⟨e, ?left, ?right⟩
      · rw [Nat.testBit_and, hm1, hen]
        rfl
      · rw [Nat.testBit_shiftRight, Nat.testBit_and, Nat.add_comm 1 e, hm2]
        rw [disabled_testBit_succ, hen]
        rfl
  have hone : pax_check_conflicting_modes m = 1 ↔
      (m &&& PAX_NOTE_ALL_ENABLED) &&&
        ((m &&& PAX_NOTE_ALL_DISABLED) >>> 1) ≠ 0 := by
    unfold pax_check_conflicting_modes
    split_ifs with h <;> simp [h]
  have hzero : pax_check_conflicting_modes m = 0 ↔
      ¬ (m &&& PAX_NOTE_ALL_ENABLED) &&&
        ((m &&& PAX_NOTE_ALL_DISABLED) >>> 1) ≠ 0 := by
    unfold pax_check_conflicting_modes
    split_ifs with h <;> simp [h]
  refine ⟨by decide, ?pos, ?neg⟩
  · rw [hone, key]
  · rw [hzero, key]

/-- A kernel thread, carrying its replicated copy of the committed PaX mask
(`struct thread`, field `td_pax`). -/
structure Thread where
  td_pax : Nat
deriving DecidableEq

/-- A process, carrying the authoritative committed PaX mask (`struct proc`,
field `p_pax`) and its threads (`FOREACH_THREAD_IN_PROC`). -/
structure Proc where
  p_pax : Nat
  threads : List Thread
deriving DecidableEq

/-- An image activation record (`struct image_params`): the two raw
requested-flag channels of `imgp->pax` and the owning process. -/
structure ImageParams where
  req_acl_flags : Nat
  req_extattr_flags : Nat
  proc : Proc
deriving DecidableEq

/-- Compile-time configuration: which `#ifdef`-gated features of
`hbsd_pax_common.c` are built in. -/
structure PaxConfig where
  control_acl : Bool
  control_extattr : Bool
  acl_override : Bool
  aslr : Bool
  map32bit : Bool
  noexec : Bool
  segvguard : Bool
  hardening : Bool
  compat32 : Bool
  jail_support : Bool
deriving DecidableEq

/-- `pax_set_flags_td` from `hbsd_pax_common.c`: write one thread's
replicated mask copy. -/
def pax_set_flags_td (td : Thread) (flags : Nat) : Thread :=
  { td with td_pax := flags }

/-- `pax_set_flags` from `hbsd_pax_common.c`: under the process lock, store
`flags` into the process mask and into every thread of the process.  The
`td` argument is only assertion-checked in the source (td == curthread,
td->td_proc == p) and does not influence the store. -/
def pax_set_flags (p : Proc) (td : Thread) (flags : Nat) : Proc :=
  { p with p_pax := flags,
           threads := p.threads.map (fun td0 => pax_set_flags_td td0 flags) }

/-- Claim C5.  After `pax_set_flags p td flags`, the process mask equals
`flags` and every thread's mask equals `flags`: each commit re-establishes
the all-threads-agree-with-process invariant. -/
theorem pax_set_flags_spec (p : Proc) (td : Thread) (flags : Nat) :
    (pax_set_flags p td flags).p_pax = flags ∧
    ((pax_set_flags p td flags).threads.all
      (fun td0 => td0.td_pax == flags)) = true ∧
    ((pax_set_flags p td flags).threads.all
      (fun td0 => td0.td_pax == (pax_set_flags p td flags).p_pax)) = true := by
  refine ⟨rfl, ?all1, ?all2⟩ <;>
  · rw [List.all_eq_true]
    intro td0 hmem
    rw [pax_set_flags] at hmem
    simp only [List.mem_map] at hmem
    obtain ⟨td1, _, hmap⟩ := hmem
    rw [← hmap]
    simp [pax_set_flags_td, pax_set_flags]

/-- The first assignment of `pax_get_requested_flags` in the both-channels
build: the ACL value when it carries the prefer-ACL marker, otherwise the
extended-attribute value. -/
def pax_req_both (imgp : ImageParams) : Nat :=
  if imgp.req_acl_flags &&& PAX_NOTE_PREFER_ACL ≠ 0 then imgp.req_acl_flags
  else imgp.req_extattr_flags

/-- `pax_get_requested_flags` from `hbsd_pax_common.c`: resolve the
requested mode from whichever control channels are compiled in. -/
def pax_get_requested_flags (cfg : PaxConfig) (imgp : ImageParams) : Nat :=
  if cfg.control_acl = true ∧ cfg.control_extattr = true then
    if pax_req_both imgp = 0 ∧ imgp.req_acl_flags ≠ 0 then imgp.req_acl_flags
    else pax_req_both imgp
  else if cfg.control_extattr = true then
    if imgp.req_extattr_flags ≠ 0 then imgp.req_extattr_flags else 0
  else if cfg.control_acl = true then
    if imgp.req_acl_flags ≠ 0 then imgp.req_acl_flags else 0
  else 0

/-- Claim C2.  With both control channels compiled in, the resolver yields
the ACL value whenever it carries the prefer-ACL marker bit; otherwise it
yields the extended-attribute value, except that it falls back to the ACL
value when the extended-attribute value is zero and the ACL value is not. -/
theorem pax_get_requested_flags_spec (cfg : PaxConfig) (imgp : ImageParams)
    (hacl : cfg.control_acl = true) (hea : cfg.control_extattr = true) :
    (imgp.req_acl_flags &&& PAX_NOTE_PREFER_ACL ≠ 0 →
      pax_get_requested_flags cfg imgp = imgp.req_acl_flags) ∧
    (imgp.req_acl_flags &&& PAX_NOTE_PREFER_ACL = 0 →
      imgp.req_extattr_flags = 0 → imgp.req_acl_flags ≠ 0 →
      pax_get_requested_flags cfg imgp = imgp.req_acl_flags) ∧
    (imgp.req_acl_flags &&& PAX_NOTE_PREFER_ACL = 0 →
      (imgp.req_extattr_flags ≠ 0 ∨ imgp.req_acl_flags = 0) →
      pax_get_requested_flags cfg imgp = imgp.req_extattr_flags) := by
  refine ⟨?marker, ?fallback, ?extattr⟩
  · intro hm
    have hz : (0 : Nat) &&& PAX_NOTE_PREFER_ACL = 0 := by decide
    have hne : imgp.req_acl_flags ≠ 0 := by
      intro h0
      rw [h0] at hm
      exact hm hz
    have hreq : pax_req_both imgp = imgp.req_acl_flags := by
      rw [pax_req_both, if_pos hm]
    rw [pax_get_requested_flags, if_pos ⟨hacl, hea⟩, hreq, if_neg]
    rintro ⟨h0, _⟩
    exact hne h0
  · intro hm h0 hne
    have hreq : pax_req_both imgp = imgp.req_extattr_flags := by
      rw [pax_req_both, if_neg (not_not_intro hm)]
    rw [pax_get_requested_flags, if_pos ⟨hacl, hea⟩, hreq, h0,
      if_pos ⟨rfl, hne⟩]
  · intro hm hor
    have hreq : pax_req_both imgp = imgp.req_extattr_flags := by
      rw [pax_req_both, if_neg (not_not_intro hm)]
    rw [pax_get_requested_flags, if_pos ⟨hacl, hea⟩, hreq, if_neg]
    rintro ⟨h0, hne⟩
    rcases hor with hea0 | hacl0
    · exact hea0 h0
    · exact hne hacl0

/-- Closed witness for `pax_get_requested_flags_spec`: with the marker set
on the ACL channel and a nonzero extended-attribute value, the ACL value is
selected. -/
theorem pax_get_requested_flags_spec_witness :
    pax_get_requested_flags
      ⟨true, true, true, true, true, true, true, true, true, true⟩
      ⟨0x1001, 0x4, ⟨0, []⟩⟩ = 0x1001 := by
  have h := pax_get_requested_flags_spec
    ⟨true, true, true, true, true, true, true, true, true, true⟩
    ⟨0x1001, 0x4, ⟨0, []⟩⟩ rfl rfl
  exact h.1 (by decide)

/-- Modelled from the spec: the four-state feature levels of `sys/sys/pax.h`
({disabled, opt-in, opt-out, force-enabled} = {0,1,2,3}). -/
def PAX_FEATURE_DISABLED : Nat := 0

/-- Modelled from the spec: the opt-in feature level. -/
def PAX_FEATURE_OPTIN : Nat := 1

/-- Modelled from the spec: the opt-out feature level. -/
def PAX_FEATURE_OPTOUT : Nat := 2

/-- Modelled from the spec: the force-enabled (most restrictive) level. -/
def PAX_FEATURE_FORCE_ENABLED : Nat := 3

/-- Modelled from the spec: the two-state disabled level. -/
def PAX_FEATURE_SIMPLE_DISABLED : Nat := 0

/-- Modelled from the spec: the two-state enabled level. -/
def PAX_FEATURE_SIMPLE_ENABLED : Nat := 1

/-- `pax_feature_validate_state` from `hbsd_pax_common.c`.  The C function
validates through a pointer; here it returns (validation passed, state
written back). -/
def pax_feature_validate_state (state : Nat) : Bool × Nat :=
  if state = PAX_FEATURE_DISABLED ∨ state = PAX_FEATURE_OPTIN ∨
     state = PAX_FEATURE_OPTOUT ∨ state = PAX_FEATURE_FORCE_ENABLED then
    (true, state)
  else
    (false, PAX_FEATURE_FORCE_ENABLED)

/-- `pax_feature_simple_validate_state` from `hbsd_pax_common.c`, same
reading. -/
def pax_feature_simple_validate_state (state : Nat) : Bool × Nat :=
  if state = PAX_FEATURE_SIMPLE_DISABLED ∨ state = PAX_FEATURE_SIMPLE_ENABLED then
    (true, state)
  else
    (false, PAX_FEATURE_SIMPLE_ENABLED)

/-- Claim C8.  Legal states pass unchanged with result true; any
out-of-range state is coerced to the force-enabled (resp. simple-enabled)
member with result false, so the caller always receives a legal state. -/
theorem pax_feature_validate_state_spec (s : Nat) :
    (s < 4 → pax_feature_validate_state s = (true, s)) ∧
    (4 ≤ s → pax_feature_validate_state s = (false, PAX_FEATURE_FORCE_ENABLED)) ∧
    (s < 2 → pax_feature_simple_validate_state s = (true, s)) ∧
    (2 ≤ s → pax_feature_simple_validate_state s = (false, PAX_FEATURE_SIMPLE_ENABLED)) := by
  refine ⟨?v1, ?v2, ?v3, ?v4⟩
  · intro h
    interval_cases s <;> rfl
  · intro h
    unfold pax_feature_validate_state
    rw [if_neg]
    unfold PAX_FEATURE_DISABLED PAX_FEATURE_OPTIN PAX_FEATURE_OPTOUT PAX_FEATURE_FORCE_ENABLED
    omega
  · intro h
    interval_cases s <;> rfl
  · intro h
    unfold pax_feature_simple_validate_state
    rw [if_neg]
    unfold PAX_FEATURE_SIMPLE_DISABLED PAX_FEATURE_SIMPLE_ENABLED
    omega

/-- Closed witness for `pax_feature_validate_state_spec` at state 7: both
validators coerce and report failure. -/
theorem pax_feature_validate_state_spec_witness :
    pax_feature_validate_state 7 = (false, PAX_FEATURE_FORCE_ENABLED) ∧
    pax_feature_simple_validate_state 7 = (false, PAX_FEATURE_SIMPLE_ENABLED) ∧
    pax_feature_validate_state 2 = (true, 2) := by
  have h7 := pax_feature_validate_state_spec 7
  have h2 := pax_feature_validate_state_spec 2
  exact ⟨h7.2.1 (by decide), h7.2.2.2 (by decide), h2.1 (by decide)⟩

/-- A log message emitted by `pax_elf`, identified by format string and the
mask it reports. -/
inductive LogEvent where
  | unknownPaxflags (m : Nat)
  | inconsistentPaxflags (m : Nat)
  | unknownAfterSetup (f : Nat)
  | inconsistentAfterSetup (f : Nat)
  | nondefaultSettings
deriving DecidableEq

/-- The compiled-in mitigation-engine flag-setup hooks invoked by `pax_elf`
(`pax_aslr_setup_flags`, `pax_disallow_map32bit_setup_flags`,
`pax_noexec_setup_flags`, `pax_segvguard_setup_flags`,
`pax_hardening_setup_flags`); external collaborators, kept abstract. -/
structure PaxHooks where
  aslr : ImageParams → Thread → Nat → Nat
  map32 : ImageParams → Thread → Nat → Nat
  noexec : ImageParams → Thread → Nat → Nat
  segvguard : ImageParams → Thread → Nat → Nat
  hardening : ImageParams → Thread → Nat → Nat

/-- Observable outcome of one `pax_elf` run: return value, resulting
process state, kernel-log lines (`pax_log_internal_imgp`) and user-visible
log lines (`pax_ulog_internal`). -/
structure PaxElfResult where
  ret : Nat
  proc : Proc
  klog : List LogEvent
  ulog : List LogEvent
deriving DecidableEq

/-- The ACL-override short-circuit test at the top of `pax_elf`: taken when
both `PAX_CONTROL_ACL` and `PAX_CONTROL_ACL_OVERRIDE_SUPPORT` are compiled
in and the current thread's committed mask carries the prefer-ACL marker. -/
def pax_elf_shortcircuit (cfg : PaxConfig) (td : Thread) : Bool :=
  cfg.control_acl && (cfg.acl_override &&
    (td.td_pax &&& PAX_NOTE_PREFER_ACL == PAX_NOTE_PREFER_ACL))

/-- The flag accumulation loop of `pax_elf`: OR together the contribution
of every compiled-in mitigation engine, starting from zero. -/
def pax_elf_setup_flags (cfg : PaxConfig) (hooks : PaxHooks) (td : Thread)
    (imgp : ImageParams) (mode : Nat) : Nat :=
  let f1 := if cfg.aslr then 0 ||| hooks.aslr imgp td mode else 0
  let f2 := if cfg.aslr && cfg.map32bit then f1 ||| hooks.map32 imgp td mode else f1
  let f3 := if cfg.noexec then f2 ||| hooks.noexec imgp td mode else f2
  let f4 := if cfg.segvguard then f3 ||| hooks.segvguard imgp td mode else f3
  if cfg.hardening then f4 ||| hooks.hardening imgp td mode else f4

/-- The prefer-ACL re-application step of `pax_elf`, just before the
commit: copy the marker bit of the requested mode into the accumulated
flags. -/
def pax_elf_commit_flags (cfg : PaxConfig) (mode flags : Nat) : Nat :=
  if cfg.control_acl = true ∧ cfg.acl_override = true then
    if mode &&& PAX_NOTE_PREFER_ACL = PAX_NOTE_PREFER_ACL then
      flags ||| PAX_NOTE_PREFER_ACL
    else
      flags &&& not32 PAX_NOTE_PREFER_ACL
  else flags

/-- `pax_elf` from `hbsd_pax_common.c`: resolve the requested mode,
validate it, accumulate the mitigation engines' flags, re-validate, re-apply
the prefer-ACL marker and commit, logging every anomaly. -/
def pax_elf (cfg : PaxConfig) (hooks : PaxHooks) (td : Thread)
    (imgp : ImageParams) : PaxElfResult :=
  if pax_elf_shortcircuit cfg td then
    { ret := 0, proc := imgp.proc, klog := [], ulog := [] }
  else if pax_validate_flags (pax_get_requested_flags cfg imgp) ≠ 0 then
    { ret := ENOEXEC, proc := imgp.proc,
      klog := [LogEvent.unknownPaxflags (pax_get_requested_flags cfg imgp)],
      ulog := [LogEvent.unknownPaxflags (pax_get_requested_flags cfg imgp)] }
  else if pax_check_conflicting_modes (pax_get_requested_flags cfg imgp) ≠ 0 then
    { ret := ENOEXEC, proc := imgp.proc,
      klog := [LogEvent.inconsistentPaxflags (pax_get_requested_flags cfg imgp)],
      ulog := [LogEvent.inconsistentPaxflags (pax_get_requested_flags cfg imgp)] }
  else if pax_validate_flags (pax_elf_setup_flags cfg hooks td imgp
      (pax_get_requested_flags cfg imgp)) ≠ 0 then
    { ret := ENOEXEC, proc := imgp.proc,
      klog := [LogEvent.unknownAfterSetup (pax_elf_setup_flags cfg hooks td imgp
        (pax_get_requested_flags cfg imgp))],
      ulog := [LogEvent.unknownAfterSetup (pax_elf_setup_flags cfg hooks td imgp
        (pax_get_requested_flags cfg imgp))] }
  else if pax_check_conflicting_modes (pax_elf_setup_flags cfg hooks td imgp
      (pax_get_requested_flags cfg imgp)) ≠ 0 then
    { ret := ENOEXEC, proc := imgp.proc,
      klog := [LogEvent.inconsistentAfterSetup (pax_elf_setup_flags cfg hooks td imgp
        (pax_get_requested_flags cfg imgp))],
      ulog := [LogEvent.inconsistentAfterSetup (pax_elf_setup_flags cfg hooks td imgp
        (pax_get_requested_flags cfg imgp))] }
  else
    { ret := 0,
      proc := pax_set_flags imgp.proc td
        (pax_elf_commit_flags cfg (pax_get_requested_flags cfg imgp)
          (pax_elf_setup_flags cfg hooks td imgp
            (pax_get_requested_flags cfg imgp))),
      klog := if pax_get_requested_flags cfg imgp ≠ 0 then
          [LogEvent.nondefaultSettings] else [],
      ulog := [] }

/-- Claim C1.  Outside the ACL-override short-circuit, if either validator
predicate fails on the raw requested mode or on the aggregated result,
`pax_elf` returns the uniform error `ENOEXEC`, emits exactly one kernel log
line and one user log line, and leaves the process's mask and every
thread's mask untouched (the commit is never reached). -/
theorem pax_elf_reject_spec (cfg : PaxConfig) (hooks : PaxHooks)
    (td : Thread) (imgp : ImageParams)
    (hsc : pax_elf_shortcircuit cfg td = false)
    (hfail : pax_validate_flags (pax_get_requested_flags cfg imgp) ≠ 0 ∨
      pax_check_conflicting_modes (pax_get_requested_flags cfg imgp) ≠ 0 ∨
      pax_validate_flags (pax_elf_setup_flags cfg hooks td imgp
        (pax_get_requested_flags cfg imgp)) ≠ 0 ∨
      pax_check_conflicting_modes (pax_elf_setup_flags cfg hooks td imgp
        (pax_get_requested_flags cfg imgp)) ≠ 0) :
    (pax_elf cfg hooks td imgp).ret = ENOEXEC ∧
    (pax_elf cfg hooks td imgp).proc = imgp.proc ∧
    (pax_elf cfg hooks td imgp).proc.p_pax = imgp.proc.p_pax ∧
    (pax_elf cfg hooks td imgp).proc.threads = imgp.proc.threads ∧
    (pax_elf cfg hooks td imgp).klog.length = 1 ∧
    (pax_elf cfg hooks td imgp).ulog.length = 1 := by
  unfold pax_elf
  rw [hsc]
  simp only [Bool.false_eq_true, if_false]
  split_ifs with h1 h2 h3 h4 h5
  · exact ⟨rfl, rfl, rfl, rfl, rfl, rfl⟩
  · exact ⟨rfl, rfl, rfl, rfl, rfl, rfl⟩
  · exact ⟨rfl, rfl, rfl, rfl, rfl, rfl⟩
  · exact ⟨rfl, rfl, rfl, rfl, rfl, rfl⟩
  · rcases hfail with hf | hf | hf | hf
    · exact absurd hf h1
    · exact absurd hf h2
    · exact absurd hf h3
    · exact absurd hf h4
  · rcases hfail with hf | hf | hf | hf
    · exact absurd hf h1
    · exact absurd hf h2
    · exact absurd hf h3
    · exact absurd hf h4

/-- Closed witness for `pax_elf_reject_spec`: a request with the unknown
bit `0x2000` is rejected with `ENOEXEC`. -/
theorem pax_elf_reject_spec_witness :
    (pax_elf ⟨true, true, true, true, true, true, true, true, true, true⟩
      ⟨fun _ _ _ => 0, fun _ _ _ => 0, fun _ _ _ => 0, fun _ _ _ => 0,
        fun _ _ _ => 0⟩
      ⟨0⟩ ⟨0, 0x2000, ⟨0, [⟨0⟩]⟩⟩).ret = ENOEXEC := by
  have h := pax_elf_reject_spec
    ⟨true, true, true, true, true, true, true, true, true, true⟩
    ⟨fun _ _ _ => 0, fun _ _ _ => 0, fun _ _ _ => 0, fun _ _ _ => 0,
      fun _ _ _ => 0⟩
    ⟨0⟩ ⟨0, 0x2000, ⟨0, [⟨0⟩]⟩⟩ (by decide) (Or.inl (by decide))
  exact h.1

/-- Absorption: OR-ing in a mask and then AND-ing with it yields the mask. -/
theorem nat_or_and_absorb (f b : Nat) : (f ||| b) &&& b = b := by
  apply Nat.eq_of_testBit_eq
  intro i
  rw [Nat.testBit_and, Nat.testBit_or]
  cases f.testBit i <;> cases b.testBit i <;> rfl

/-- AND with the single prefer-ACL marker bit yields either zero or the
marker itself. -/
theorem and_prefer_acl_cases (x : Nat) :
    x &&& PAX_NOTE_PREFER_ACL = 0 ∨
    x &&& PAX_NOTE_PREFER_ACL = PAX_NOTE_PREFER_ACL := by
  have hp : PAX_NOTE_PREFER_ACL = 2 ^ 12 := by decide
  cases hx : x.testBit 12
  · left
    apply Nat.eq_of_testBit_eq
    intro i
    rw [Nat.zero_testBit, Nat.testBit_and, hp, Nat.testBit_two_pow]
    by_cases hi : i = 12
    · subst hi
      rw [hx]
      rfl
    · rw [decide_eq_false (fun h12 => hi (Eq.symm h12))]
      exact Bool.and_false _
  · right
    apply Nat.eq_of_testBit_eq
    intro i
    rw [Nat.testBit_and, hp, Nat.testBit_two_pow]
    by_cases hi : i = 12
    · subst hi
      rw [hx]
      rfl
    · rw [decide_eq_false (fun h12 => hi (Eq.symm h12))]
      exact Bool.and_false _

/-- After masking out the prefer-ACL marker with its 32-bit complement,
AND-ing with the marker yields zero. -/
theorem and_not32_prefer_acl (y : Nat) :
    (y &&& not32 PAX_NOTE_PREFER_ACL) &&& PAX_NOTE_PREFER_ACL = 0 := by
  apply Nat.eq_of_testBit_eq
  intro i
  rw [Nat.zero_testBit, Nat.testBit_and, Nat.testBit_and]
  have hp : PAX_NOTE_PREFER_ACL = 2 ^ 12 := by decide
  by_cases hi : i = 12
  · subst hi
    have hn : (not32 PAX_NOTE_PREFER_ACL).testBit 12 = false := by decide
    rw [hn]
    cases y.testBit 12 <;> rfl
  · rw [hp, Nat.testBit_two_pow, decide_eq_false (fun h12 => hi (Eq.symm h12))]
    exact Bool.and_false _

/-- The prefer-ACL marker carried by the committed flags matches the
requested mode exactly. -/
theorem pax_elf_commit_flags_prefer_acl (cfg : PaxConfig) (mode flags : Nat)
    (hacl : cfg.control_acl = true) (hov : cfg.acl_override = true) :
    pax_elf_commit_flags cfg mode flags &&& PAX_NOTE_PREFER_ACL =
      mode &&& PAX_NOTE_PREFER_ACL := by
  unfold pax_elf_commit_flags
  rw [if_pos ⟨hacl, hov⟩]
  split_ifs with hm
  · rw [nat_or_and_absorb, hm]
  · rw [and_not32_prefer_acl]
    rcases and_prefer_acl_cases mode with h0 | h1
    · rw [h0]
    · exact absurd h1 hm

/-- Claim C6.  With ACL override support compiled in, every committing run
of `pax_elf` (not short-circuited, returning 0) stores a mask whose
prefer-ACL marker bit agrees exactly with the originally requested mode. -/
theorem pax_elf_prefer_acl_spec (cfg : PaxConfig) (hooks : PaxHooks)
    (td : Thread) (imgp : ImageParams)
    (hacl : cfg.control_acl = true) (hov : cfg.acl_override = true)
    (hsc : pax_elf_shortcircuit cfg td = false)
    (hret : (pax_elf cfg hooks td imgp).ret = 0) :
    (pax_elf cfg hooks td imgp).proc.p_pax &&& PAX_NOTE_PREFER_ACL =
      pax_get_requested_flags cfg imgp &&& PAX_NOTE_PREFER_ACL := by
  unfold pax_elf at hret ⊢
  rw [hsc] at hret ⊢
  simp only [Bool.false_eq_true, if_false] at hret ⊢
  split_ifs at hret ⊢ with h1 h2 h3 h4 h5
  · exact absurd hret (by simp [ENOEXEC])
  · exact absurd hret (by simp [ENOEXEC])
  · exact absurd hret (by simp [ENOEXEC])
  · exact absurd hret (by simp [ENOEXEC])
  · exact pax_elf_commit_flags_prefer_acl cfg _ _ hacl hov
  · exact pax_elf_commit_flags_prefer_acl cfg _ _ hacl hov

/-- Closed witness for `pax_elf_prefer_acl_spec`: a marker-carrying ACL
request of `0x1001` commits a mask whose marker bit is set. -/
theorem pax_elf_prefer_acl_spec_witness :
    (pax_elf ⟨true, true, true, true, true, true, true, true, true, true⟩
      ⟨fun _ _ _ => 0, fun _ _ _ => 0, fun _ _ _ => 0, fun _ _ _ => 0,
        fun _ _ _ => 0⟩
      ⟨0⟩ ⟨0x1001, 0x4, ⟨0, [⟨0⟩]⟩⟩).proc.p_pax &&& PAX_NOTE_PREFER_ACL =
    pax_get_requested_flags
      ⟨true, true, true, true, true, true, true, true, true, true⟩
      ⟨0x1001, 0x4, ⟨0, [⟨0⟩]⟩⟩ &&& PAX_NOTE_PREFER_ACL :=
  pax_elf_prefer_acl_spec
    ⟨true, true, true, true, true, true, true, true, true, true⟩
    ⟨fun _ _ _ => 0, fun _ _ _ => 0, fun _ _ _ => 0, fun _ _ _ => 0,
      fun _ _ _ => 0⟩
    ⟨0⟩ ⟨0x1001, 0x4, ⟨0, [⟨0⟩]⟩⟩ rfl rfl (by decide) (by decide)

/-- Claim C7.  With ACL override support compiled in and the current
thread's committed mask carrying the prefer-ACL marker, `pax_elf` succeeds
immediately for every hook set and image record: no mitigation hook is
consulted, no log line is emitted, and the process (with all its threads)
is returned unchanged. -/
theorem pax_elf_acl_override_spec (cfg : PaxConfig) (td : Thread)
    (hacl : cfg.control_acl = true) (hov : cfg.acl_override = true)
    (hbit : td.td_pax &&& PAX_NOTE_PREFER_ACL = PAX_NOTE_PREFER_ACL) :
    ∀ (hooks : PaxHooks) (imgp : ImageParams),
      pax_elf cfg hooks td imgp =
        { ret := 0, proc := imgp.proc, klog := [], ulog := [] } := by
  intro hooks imgp
  unfold pax_elf
  rw [if_pos]
  unfold pax_elf_shortcircuit
  rw [hacl, hov]
  simp [hbit]

/-- Closed witness for `pax_elf_acl_override_spec`: a thread whose mask is
exactly the marker short-circuits even a malformed request. -/
theorem pax_elf_acl_override_spec_witness :
    pax_elf ⟨true, true, true, true, true, true, true, true, true, true⟩
      ⟨fun _ _ _ => 0, fun _ _ _ => 0, fun _ _ _ => 0, fun _ _ _ => 0,
        fun _ _ _ => 0⟩
      ⟨0x1000⟩ ⟨0, 0x2000, ⟨0, [⟨0x1000⟩]⟩⟩ =
    { ret := 0, proc := ⟨0, [⟨0x1000⟩]⟩, klog := [], ulog := [] } :=
  pax_elf_acl_override_spec
    ⟨true, true, true, true, true, true, true, true, true, true⟩
    ⟨0x1000⟩ rfl rfl (by decide)
    ⟨fun _ _ _ => 0, fun _ _ _ => 0, fun _ _ _ => 0, fun _ _ _ => 0,
      fun _ _ _ => 0⟩
    ⟨0, 0x2000, ⟨0, [⟨0x1000⟩]⟩⟩

/-- `pax_handle_prison_param` from `hbsd_pax_common.c`.  The external
`vfs_copyopt` collaborator is abstracted by its outcome: the error code it
returned and the state value it copied out.  The result is (return value,
status after the call); with `PAX_JAIL_SUPPORT` compiled out the body is
empty. -/
def pax_handle_prison_param (cfg : PaxConfig) (copyopt_error : Nat)
    (new_state : Nat) (status : Nat) : Nat × Nat :=
  if cfg.jail_support = true then
    if copyopt_error = ENOENT then (0, status)
    else if copyopt_error = 0 then
      if (pax_feature_validate_state new_state).1 = true then
        (0, (pax_feature_validate_state new_state).2)
      else (0, status)
    else (copyopt_error, status)
  else (0, status)

/-- Claim C10.  With jail support compiled in: when the parameter is
present (`vfs_copyopt` returned 0) but its value fails feature-state
validation, the status keeps its prior value (the coerced value is
discarded) and the function returns 0, indistinguishable from the
parameter being absent (`ENOENT`); any `vfs_copyopt` error other than
`ENOENT` is propagated unchanged. -/
theorem pax_handle_prison_param_spec (cfg : PaxConfig)
    (hjail : cfg.jail_support = true) (ns status : Nat) :
    ((pax_feature_validate_state ns).1 = false →
      pax_handle_prison_param cfg 0 ns status = (0, status) ∧
      pax_handle_prison_param cfg 0 ns status =
        pax_handle_prison_param cfg ENOENT ns status) ∧
    (∀ e : Nat, e ≠ 0 → e ≠ ENOENT →
      pax_handle_prison_param cfg e ns status = (e, status)) := by
  constructor
  · intro hval
    have hz : (0 : Nat) ≠ ENOENT := by decide
    constructor
    · rw [pax_handle_prison_param, if_pos hjail, if_neg hz, if_pos rfl,
        if_neg]
      rw [hval]
      exact Bool.false_ne_true
    · rw [pax_handle_prison_param, if_pos hjail, if_neg hz, if_pos rfl,
        if_neg, pax_handle_prison_param, if_pos hjail, if_pos rfl]
      rw [hval]
      exact Bool.false_ne_true
  · intro e he hent
    rw [pax_handle_prison_param, if_pos hjail, if_neg hent, if_neg he]

/-- Closed witness for `pax_handle_prison_param_spec`: the illegal state 9
is discarded, the prior status 2 survives, and error 5 propagates. -/
theorem pax_handle_prison_param_spec_witness :
    pax_handle_prison_param
      ⟨true, true, true, true, true, true, true, true, true, true⟩
      0 9 2 = (0, 2) ∧
    pax_handle_prison_param
      ⟨true, true, true, true, true, true, true, true, true, true⟩
      5 9 2 = (5, 2) := by
  have h := pax_handle_prison_param_spec
    ⟨true, true, true, true, true, true, true, true, true, true⟩ rfl 9 2
  exact ⟨(h.1 (by decide)).1, h.2 5 (by decide) (by decide)⟩

/-- A containment context (`struct prison`); `is_prison0` marks the root
prison (`&prison0`), identified in the source by pointer comparison. -/
structure Prison where
  pr_name : String
  is_prison0 : Bool
deriving DecidableEq

/-- One per-mitigation prison initializer invocation, in the order the
source calls them. -/
inductive PrisonInitStep where
  | aslr
  | hardening
  | noexec
  | segvguard
  | aslr32
  | log
deriving DecidableEq

/-- The external per-mitigation prison initializers (`pax_aslr_init_prison`,
`pax_hardening_init_prison`, `pax_noexec_init_prison`,
`pax_segvguard_init_prison`, `pax_aslr_init_prison32`,
`pax_log_init_prison`), abstract over the option-list type `O`; a nonzero
return is a failure. -/
structure PrisonInitHooks (O : Type) where
  aslr : Prison → O → Nat
  hardening : Prison → O → Nat
  noexec : Prison → O → Nat
  segvguard : Prison → O → Nat
  aslr32 : Prison → O → Nat
  log : Prison → O → Nat

/-- Outcome of `pax_init_prison`: boolean result, the trace of initializers
actually invoked, and whether the final `KASSERT` condition
`(pr == &prison0 && ret == true) || pr != &prison0` holds. -/
structure PrisonInitResult where
  ret : Bool
  steps : List PrisonInitStep
  kassert_ok : Bool
deriving DecidableEq

/-- The `KASSERT` guard at the end of `pax_init_prison`. -/
def prison_kassert (pr : Prison) (ret : Bool) : Bool :=
  (pr.is_prison0 && ret) || !pr.is_prison0

/-- `pax_init_prison` from `hbsd_pax_common.c`: delegate to each
mitigation engine's prison initializer in order, jumping to `out` with a
false result on the first failure; the `COMPAT_FREEBSD32` ASLR variant runs
only when compiled in. -/
def pax_init_prison {O : Type} (cfg : PaxConfig) (h : PrisonInitHooks O)
    (pr : Prison) (opts : O) : PrisonInitResult :=
  if h.aslr pr opts ≠ 0 then
    ⟨false, [PrisonInitStep.aslr], prison_kassert pr false⟩
  else if h.hardening pr opts ≠ 0 then
    ⟨false, [PrisonInitStep.aslr, PrisonInitStep.hardening],
      prison_kassert pr false⟩
  else if h.noexec pr opts ≠ 0 then
    ⟨false, [PrisonInitStep.aslr, PrisonInitStep.hardening,
      PrisonInitStep.noexec], prison_kassert pr false⟩
  else if h.segvguard pr opts ≠ 0 then
    ⟨false, [PrisonInitStep.aslr, PrisonInitStep.hardening,
      PrisonInitStep.noexec, PrisonInitStep.segvguard],
      prison_kassert pr false⟩
  else if cfg.compat32 = true ∧ h.aslr32 pr opts ≠ 0 then
    ⟨false, [PrisonInitStep.aslr, PrisonInitStep.hardening,
      PrisonInitStep.noexec, PrisonInitStep.segvguard,
      PrisonInitStep.aslr32], prison_kassert pr false⟩
  else if h.log pr opts ≠ 0 then
    ⟨false, [PrisonInitStep.aslr, PrisonInitStep.hardening,
      PrisonInitStep.noexec, PrisonInitStep.segvguard] ++
      (if cfg.compat32 = true then [PrisonInitStep.aslr32] else []) ++
      [PrisonInitStep.log], prison_kassert pr false⟩
  else
    ⟨true, [PrisonInitStep.aslr, PrisonInitStep.hardening,
      PrisonInitStep.noexec, PrisonInitStep.segvguard] ++
      (if cfg.compat32 = true then [PrisonInitStep.aslr32] else []) ++
      [PrisonInitStep.log], prison_kassert pr true⟩

/-- Modelled from the spec: the fixed delegation order of the prison
initializers — ASLR, hardening, no-exec, segv-guard, the compat-32 ASLR
variant when compiled in, then logging. -/
def prisonInitOrder (cfg : PaxConfig) : List PrisonInitStep :=
  [PrisonInitStep.aslr, PrisonInitStep.hardening, PrisonInitStep.noexec,
    PrisonInitStep.segvguard] ++
  (if cfg.compat32 = true then [PrisonInitStep.aslr32] else []) ++
  [PrisonInitStep.log]

/-- Dispatch one initializer step to its hook. -/
def prisonStepHook {O : Type} (h : PrisonInitHooks O) (pr : Prison)
    (opts : O) : PrisonInitStep → Nat
  | PrisonInitStep.aslr => h.aslr pr opts
  | PrisonInitStep.hardening => h.hardening pr opts
  | PrisonInitStep.noexec => h.noexec pr opts
  | PrisonInitStep.segvguard => h.segvguard pr opts
  | PrisonInitStep.aslr32 => h.aslr32 pr opts
  | PrisonInitStep.log => h.log pr opts

/-- Modelled from the spec: run the initializers of a list sequentially,
short-circuiting on the first failure, returning the overall result and the
trace of initializers actually invoked. -/
def runInitSteps (f : PrisonInitStep → Nat) :
    List PrisonInitStep → Bool × List PrisonInitStep
  | [] => (true, [])
  | s :: rest =>
    if f s ≠ 0 then (false, [s])
    else ((runInitSteps f rest).1, s :: (runInitSteps f rest).2)

/-- Claim C9.  `pax_init_prison` behaves exactly as sequential delegation
in the fixed order (ASLR, hardening, no-exec, segv-guard, compat-32 ASLR
when compiled in, logging) with short-circuit on first failure: its result
and its invocation trace coincide with `runInitSteps` over that order, it
returns true exactly when every compiled-in initializer succeeds, and for
the root prison the KASSERT holds exactly when the result is true (a false
result is an assertion violation, not an ordinary rejection). -/
theorem pax_init_prison_spec {O : Type} (cfg : PaxConfig)
    (h : PrisonInitHooks O) (pr : Prison) (opts : O) :
    (pax_init_prison cfg h pr opts).ret =
      (runInitSteps (prisonStepHook h pr opts) (prisonInitOrder cfg)).1 ∧
    (pax_init_prison cfg h pr opts).steps =
      (runInitSteps (prisonStepHook h pr opts) (prisonInitOrder cfg)).2 ∧
    ((pax_init_prison cfg h pr opts).ret = true ↔
      ∀ s ∈ prisonInitOrder cfg, prisonStepHook h pr opts s = 0) ∧
    (pr.is_prison0 = true →
      ((pax_init_prison cfg h pr opts).kassert_ok = true ↔
        (pax_init_prison cfg h pr opts).ret = true)) := by
  cases hc : cfg.compat32 <;>
  · simp only [pax_init_prison, prisonInitOrder, runInitSteps,
      prisonStepHook, prison_kassert, hc, Bool.false_eq_true, if_false,
      if_true, List.append_nil, List.cons_append, List.nil_append,
      List.mem_cons, List.mem_singleton, List.not_mem_nil]
    split_ifs with h1 h2 h3 h4 h5 h6 <;>
      simp_all [prisonStepHook]

/-- Closed witness for `pax_init_prison_spec`: with every initializer
succeeding on the root prison, the result is true, the full order is
traced, and the root-prison assertion holds. -/
theorem pax_init_prison_spec_witness :
    (pax_init_prison
      ⟨true, true, true, true, true, true, true, true, true, true⟩
      (⟨fun _ _ => 0, fun _ _ => 0, fun _ _ => 0, fun _ _ => 0,
        fun _ _ => 0, fun _ _ => 0⟩ : PrisonInitHooks Unit)
      ⟨"prison0", true⟩ ()).ret = true ∧
    (pax_init_prison
      ⟨true, true, true, true, true, true, true, true, true, true⟩
      (⟨fun _ _ => 0, fun _ _ => 0, fun _ _ => 0, fun _ _ => 0,
        fun _ _ => 0, fun _ _ => 0⟩ : PrisonInitHooks Unit)
      ⟨"prison0", true⟩ ()).kassert_ok = true := by
  have h := pax_init_prison_spec
    ⟨true, true, true, true, true, true, true, true, true, true⟩
    (⟨fun _ _ => 0, fun _ _ => 0, fun _ _ => 0, fun _ _ => 0,
      fun _ _ => 0, fun _ _ => 0⟩ : PrisonInitHooks Unit)
    ⟨"prison0", true⟩ ()
  have hret := h.2.2.1.mpr (by decide)
  exact ⟨hret, (h.2.2.2 rfl).mpr hret⟩
